import Mathlib

/-!
Shallow embedding of the retrocam capture application (src/src/App.tsx):
camera lifecycle (startCamera / stopCamera), the capture pipeline with
film-grain noise (capturePhoto), export (downloadPhoto), and filter-mode
selection, together with theorems checking the specification.

The asynchronous environment (getUserMedia, the readiness race) is made
explicit as an outcome parameter; React state updates are modelled as
immediate assignments on an explicit application state, and the externally
observable actions of each operation are collected in an event trace.
-/

namespace Retrocam

/-- The closed set of filter modes (`type FilterMode` in App.tsx). -/
inductive FilterMode
  | natural
  | film70s
  | sepia
  | polaroid
deriving DecidableEq

/-- `filterStyles` record from App.tsx. -/
def filterStyles : FilterMode → String
  | .natural => "none"
  | .film70s => "contrast(1.1) saturate(1.3) sepia(0.2) brightness(1.05)"
  | .sepia => "sepia(0.8) contrast(1.1) brightness(1.05)"
  | .polaroid => "contrast(1.2) saturate(0.9) brightness(1.1) sepia(0.1)"

/-- The status tag of `CameraState` in App.tsx. -/
inductive StatusTag
  | idle
  | requesting
  | active
  | error
deriving DecidableEq

/-- `interface CameraState` from App.tsx: a status plus an optional error message. -/
structure CameraState where
  status : StatusTag
  error : Option String
deriving DecidableEq

/-- Whether the character list `pre` is a prefix of `l` (helper for substring search). -/
def charPrefixOf : List Char → List Char → Bool
  | [], _ => true
  | _ :: _, [] => false
  | a :: as, b :: bs => a == b && charPrefixOf as bs

/-- Whether `needle` occurs as a contiguous sublist of the character list (helper). -/
def charContainsSub (needle : List Char) : List Char → Bool
  | [] => charPrefixOf needle []
  | c :: rest => charPrefixOf needle (c :: rest) || charContainsSub needle rest

/-- JavaScript `hay.includes(needle)` on strings. -/
def includesStr (hay needle : String) : Bool :=
  charContainsSub needle.data hay.data

/-- The permission-denied message set by `startCamera`. -/
def deniedMsg : String :=
  "Camera access denied. Please allow camera permissions and try again."

/-- The device-not-found message set by `startCamera`. -/
def notFoundMsg : String :=
  "No camera found on this device."

/-- The error classification in the `catch` block of `startCamera` (App.tsx lines 100-106). -/
def classifyError (msg : String) : CameraState :=
  if includesStr msg "Permission denied" || includesStr msg "NotAllowedError" then
    { status := .error, error := some deniedMsg }
  else if includesStr msg "NotFoundError" || includesStr msg "DevicesNotFoundError" then
    { status := .error, error := some notFoundMsg }
  else
    { status := .error, error := some ("Camera error: " ++ msg) }

/-- `err instanceof Error ? err.message : 'Unknown error'`: a thrown value is
modelled as `some message` when it is an `Error` and `none` otherwise. -/
def errMessage (e : Option String) : String :=
  e.getD "Unknown error"

/-- A captured still artifact: the post-grain pixel buffer together with the
encoding parameters of `canvas.toDataURL('image/jpeg', 0.9)`. -/
structure Artifact where
  pixels : List Nat
  width : Nat
  height : Nat
  mime : String
  quality : ℚ
deriving DecidableEq

/-- The application state held in the component: React state hooks, the two
element refs and the stream ref. `live` is a ghost field recording the
handles whose underlying tracks have not been stopped. -/
structure AppState where
  cameraState : CameraState
  selectedMode : FilterMode
  filmCount : Int
  isCapturing : Bool
  capturedImage : Option Artifact
  showFlash : Bool
  videoPresent : Bool
  canvasPresent : Bool
  videoSrc : Option Nat
  streamRef : Option Nat
  live : List Nat
deriving DecidableEq

/-- The initial component state (the `useState` initialisers; both elements
are mounted on first render). -/
def initState : AppState :=
  { cameraState := { status := .idle, error := none }
  , selectedMode := .film70s
  , filmCount := 24
  , isCapturing := false
  , capturedImage := none
  , showFlash := false
  , videoPresent := true
  , canvasPresent := true
  , videoSrc := none
  , streamRef := none
  , live := [] }

/-- Externally observable actions emitted by the operations. -/
inductive Event
  | statusSet (st : CameraState)
  | trackStop (h : Nat)
  | srcCleared
  | acquireRequest
  | srcBound (h : Nat)
  | playStarted
  | flashOn
  | scheduleFlashOff
  | capturingOn
  | scheduleCapturingOff
  | artifactStored
  | filmDec
  | download (filename : String)
deriving DecidableEq

/-- `stopCamera` (App.tsx lines 29-37): stop every track of the current
stream and clear the stream ref, then detach the video element. -/
def stopCamera (s : AppState) : AppState × List Event :=
  let p :=
    match s.streamRef with
    | some h =>
        ({ s with streamRef := none, live := s.live.filter (fun x => x != h) },
         [Event.trackStop h])
    | none => (s, [])
  if p.1.videoPresent then
    ({ p.1 with videoSrc := none }, p.2 ++ [Event.srcCleared])
  else p

/-- Outcome of the readiness race awaited inside `startCamera`: the
`loadedmetadata` event followed by `play()` (which may reject), the video
`error` event, or the 5-second timeout. -/
inductive ReadyOutcome
  | loadedAndPlayed
  | loadedPlayFailed (e : Option String)
  | videoError
  | timeout
deriving DecidableEq

/-- Outcome of the `getUserMedia` request: rejected with a thrown value, or
granted a stream handle whose readiness then resolves as `r`. -/
inductive AcqOutcome
  | rejected (e : Option String)
  | granted (h : Nat) (r : ReadyOutcome)
deriving DecidableEq

/-- `startCamera` (App.tsx lines 39-108), with the environment outcome made
explicit. Sets status to requesting, releases any existing stream, issues
the acquisition request; on grant stores the handle, and if the video
element is mounted binds it, awaits readiness and playback, then sets
status active; every caught failure is classified into an error status. -/
def startCamera (s : AppState) (o : AcqOutcome) : AppState × List Event :=
  let req : CameraState := { status := .requesting, error := none }
  let s0 := { s with cameraState := req }
  let p1 := stopCamera s0
  let e2 := Event.statusSet req :: p1.2 ++ [Event.acquireRequest]
  match o with
  | .rejected e =>
      let st := classifyError (errMessage e)
      ({ p1.1 with cameraState := st }, e2 ++ [Event.statusSet st])
  | .granted h r =>
      let s2 := { p1.1 with streamRef := some h, live := p1.1.live ++ [h] }
      if s2.videoPresent then
        let s3 := { s2 with videoSrc := some h }
        let e3 := e2 ++ [Event.srcBound h]
        match r with
        | .loadedAndPlayed =>
            let st : CameraState := { status := .active, error := none }
            ({ s3 with cameraState := st },
             e3 ++ [Event.playStarted, Event.statusSet st])
        | .loadedPlayFailed e =>
            let st := classifyError (errMessage e)
            ({ s3 with cameraState := st }, e3 ++ [Event.statusSet st])
        | .videoError =>
            let st := classifyError "Video failed to load"
            ({ s3 with cameraState := st }, e3 ++ [Event.statusSet st])
        | .timeout =>
            let st := classifyError "Camera initialization timed out"
            ({ s3 with cameraState := st }, e3 ++ [Event.statusSet st])
      else
        (s2, e2)

/-- The per-iteration noise sample `(Math.random() - 0.5) * 20`, with the
random stream `rand` indexed by pixel number. -/
def noiseAt (rand : Nat → ℚ) (k : Nat) : ℚ :=
  (rand k - 1/2) * 20

/-- Rounding half to even, as used by `Uint8ClampedArray` stores. -/
def roundHalfEven (x : ℚ) : ℤ :=
  let f := ⌊x⌋
  let d := x - f
  if d < 1/2 then f
  else if 1/2 < d then f + 1
  else if f % 2 = 0 then f else f + 1

/-- The ECMAScript `ToUint8Clamp` conversion applied when assigning a number
into a `Uint8ClampedArray` slot. -/
def toUint8Clamp (x : ℚ) : Nat :=
  if x ≤ 0 then 0
  else if 255 ≤ x then 255
  else (roundHalfEven x).toNat

/-- The grain loop body of `capturePhoto` (App.tsx lines 139-144): one noise
sample per iteration, added to the bytes at offsets `i`, `i+1`, `i+2` of the
RGBA buffer; the byte at `i+3` is not written. Trailing bytes of a buffer
whose length is not a multiple of 4 still receive the shared sample (the
out-of-range typed-array accesses of the source are ignored writes). -/
def applyGrainAux (rand : Nat → ℚ) : Nat → List Nat → List Nat
  | _, [] => []
  | k, r :: g :: b :: a :: rest =>
      toUint8Clamp (r + noiseAt rand k) :: toUint8Clamp (g + noiseAt rand k) ::
      toUint8Clamp (b + noiseAt rand k) :: a :: applyGrainAux rand (k + 1) rest
  | k, [r, g, b] =>
      [toUint8Clamp (r + noiseAt rand k), toUint8Clamp (g + noiseAt rand k),
       toUint8Clamp (b + noiseAt rand k)]
  | k, [r, g] =>
      [toUint8Clamp (r + noiseAt rand k), toUint8Clamp (g + noiseAt rand k)]
  | k, [r] => [toUint8Clamp (r + noiseAt rand k)]

/-- Film-grain pass over the whole RGBA buffer. -/
def applyGrain (data : List Nat) (rand : Nat → ℚ) : List Nat :=
  applyGrainAux rand 0 data

/-- Environment of one `capturePhoto` call: whether `getContext('2d')`
succeeds, the video's native dimensions, the RGBA bytes produced by the
filtered `drawImage` (as read back by `getImageData`), and the
`Math.random()` stream consumed by the grain loop. -/
structure CaptureEnv where
  ctxAvailable : Bool
  width : Nat
  height : Nat
  drawn : List Nat
  rand : Nat → ℚ

/-- `capturePhoto` (App.tsx lines 116-152): guard on the two element refs and
the film count; set the capturing and flash signals and schedule the flash
reset; bail out if no 2d context; otherwise draw the filtered frame, apply
grain, encode the JPEG artifact, store it, decrement the film count and
schedule the capturing reset. -/
def capturePhoto (s : AppState) (env : CaptureEnv) : AppState × List Event :=
  if ¬ s.videoPresent ∨ ¬ s.canvasPresent ∨ s.filmCount ≤ 0 then (s, [])
  else
    let s1 := { s with isCapturing := true, showFlash := true }
    let e1 := [Event.capturingOn, Event.flashOn, Event.scheduleFlashOff]
    if ¬ env.ctxAvailable then (s1, e1)
    else
      let art : Artifact :=
        { pixels := applyGrain env.drawn env.rand
        , width := env.width
        , height := env.height
        , mime := "image/jpeg"
        , quality := 9/10 }
      ({ s1 with capturedImage := some art, filmCount := s.filmCount - 1 },
       e1 ++ [Event.artifactStored, Event.filmDec, Event.scheduleCapturingOff])

/-- The capture button (App.tsx lines 362-369): it invokes `capturePhoto`
only when enabled, and it is disabled unless the status is active and film
remains. -/
def captureClick (s : AppState) (env : CaptureEnv) : AppState × List Event :=
  if s.cameraState.status = StatusTag.active ∧ 0 < s.filmCount then
    capturePhoto s env
  else (s, [])

/-- `downloadPhoto` (App.tsx lines 154-161): with no captured image it
returns immediately; otherwise it builds the timestamped filename and
triggers the download. -/
def downloadPhoto (s : AppState) (now : Nat) : AppState × List Event :=
  match s.capturedImage with
  | none => (s, [])
  | some _ => (s, [Event.download ("retrocam-" ++ toString now ++ ".jpg")])

/-- `setSelectedMode` as invoked by the mode buttons (App.tsx lines 310-326). -/
def selectMode (s : AppState) (m : FilterMode) : AppState :=
  { s with selectedMode := m }

/-- One user-level operation, with its environment outcome where relevant. -/
inductive Op
  | start (o : AcqOutcome)
  | stop
  | capture (env : CaptureEnv)
  | click (env : CaptureEnv)
  | select (m : FilterMode)
  | save (now : Nat)

/-- Interpretation of one operation on the application state. -/
def step (s : AppState) : Op → AppState × List Event
  | .start o => startCamera s o
  | .stop => stopCamera s
  | .capture env => capturePhoto s env
  | .click env => captureClick s env
  | .select m => (selectMode s m, [])
  | .save now => downloadPhoto s now

/-- Run a sequence of operations, concatenating the event traces. -/
def run (s : AppState) : List Op → AppState × List Event
  | [] => (s, [])
  | op :: ops =>
      let p := step s op
      let q := run p.1 ops
      (q.1, p.2 ++ q.2)

/-- The status assignments recorded in a trace. -/
def statusEvents (tr : List Event) : List CameraState :=
  tr.filterMap fun e =>
    match e with
    | .statusSet st => some st
    | _ => none

/-- Adjacency relation for the state machine: a transition into active or
error may only leave the requesting status. -/
def intoRequires (p q : CameraState) : Prop :=
  (q.status = StatusTag.active ∨ q.status = StatusTag.error) →
    p.status = StatusTag.requesting

/-- The handles kept live by the stream ref alone. -/
def refLive : Option Nat → List Nat
  | none => []
  | some h => [h]

/-- The failure message, if any, with which a `startCamera` invocation on a
mounted video element settles. -/
def startFailureMsg : AcqOutcome → Option String
  | .rejected e => some (errMessage e)
  | .granted _ r =>
      match r with
      | .loadedAndPlayed => none
      | .loadedPlayFailed e => some (errMessage e)
      | .videoError => some "Video failed to load"
      | .timeout => some "Camera initialization timed out"

/-- n consecutive `stopCamera` calls (state component). -/
def stopIter : Nat → AppState → AppState
  | 0, s => s
  | n + 1, s => stopIter n (stopCamera s).1

/-- k successive `capturePhoto` calls, the k-th using environment `envs k`. -/
def iterCapture (envs : Nat → CaptureEnv) (s : AppState) : Nat → AppState
  | 0 => s
  | k + 1 => (capturePhoto (iterCapture envs s k) (envs k)).1

/-- A state with an active camera and the initial film budget. -/
def activeState : AppState :=
  { initState with cameraState := { status := .active, error := none } }

/-- A concrete capture environment with a working context and a 1x1 frame. -/
def trivEnv : CaptureEnv :=
  { ctxAvailable := true, width := 1, height := 1
  , drawn := [100, 100, 100, 255], rand := fun _ => 1/2 }

/-- A concrete capture environment whose 2d-context acquisition fails. -/
def noCtxEnv : CaptureEnv :=
  { ctxAvailable := false, width := 0, height := 0
  , drawn := [], rand := fun _ => 0 }

/- ## Basic lemmas about the operations -/

theorem stopCamera_fst (s : AppState) :
    (stopCamera s).1 =
      { s with
        streamRef := none
      , live := match s.streamRef with
                | some h => s.live.filter (fun x => x != h)
                | none => s.live
      , videoSrc := if s.videoPresent then none else s.videoSrc } := by
  obtain ⟨cs, sm, fc, ic, ci, sf, vp, cp, vs, sr, lv⟩ := s
  unfold stopCamera
  cases sr <;> cases vp <;> simp

theorem stopCamera_snd (s : AppState) :
    (stopCamera s).2 =
      (match s.streamRef with
       | some h => [Event.trackStop h]
       | none => []) ++
      (if s.videoPresent then [Event.srcCleared] else []) := by
  unfold stopCamera
  cases hsr : s.streamRef <;> cases hv : s.videoPresent <;> simp [hsr, hv]

theorem classifyError_status (m : String) :
    (classifyError m).status = StatusTag.error := by
  unfold classifyError
  split_ifs <;> rfl

theorem classifyError_cases (m : String) :
    (classifyError m).error = some deniedMsg ∨
    (classifyError m).error = some notFoundMsg ∨
    (classifyError m).error = some ("Camera error: " ++ m) := by
  unfold classifyError
  split_ifs <;> simp

/-- C7: stop() is idempotent and total: n > 1 consecutive calls produce the
same state as one call, calling it with no held handle and no bound source
is a no-op, and it always leaves the camera status (and error) unchanged. -/
theorem C7_stop_idempotent (s : AppState) (n : Nat) (hn : 1 ≤ n) :
    stopIter n s = (stopCamera s).1 ∧
    (stopCamera s).1.cameraState = s.cameraState ∧
    (s.streamRef = none → s.videoSrc = none → (stopCamera s).1 = s) := by
  have hidem : ∀ t : AppState, (stopCamera (stopCamera t).1).1 = (stopCamera t).1 := by
    intro t
    rw [stopCamera_fst, stopCamera_fst]
    cases hsr : t.streamRef <;> cases hv : t.videoPresent <;> simp
  refine ⟨?_, by rw [stopCamera_fst], ?_⟩
  · obtain ⟨m, rfl⟩ : ∃ m, n = m + 1 := ⟨n - 1, by omega⟩
    clear hn
    induction m generalizing s with
    | zero => rfl
    | succ k ih =>
        have h1 : stopIter (k + 1 + 1) s = stopIter (k + 1) (stopCamera s).1 := rfl
        rw [h1, ih (stopCamera s).1, hidem s]
  · intro h1 h2
    obtain ⟨cs, sm, fc, ic, ci, sf, vp, cp, vs, sr, lv⟩ := s
    cases vp <;> rw [stopCamera_fst] <;> simp_all

/-- C7 witness: concrete instantiation at the initial state with n = 2. -/
theorem C7_stop_idempotent_witness :
    1 ≤ 2 ∧ stopIter 2 initState = (stopCamera initState).1 ∧
    (stopCamera initState).1.cameraState = initState.cameraState ∧
    (stopCamera initState).1 = initState :=
  ⟨by decide, (C7_stop_idempotent initState 2 (by decide)).1,
   (C7_stop_idempotent initState 2 (by decide)).2.1,
   (C7_stop_idempotent initState 2 (by decide)).2.2 rfl rfl⟩

/-- C8: invoking the capture operation (the capture button, which is disabled
unless the status is active) in a state whose status is idle, requesting or
error is a no-op: no artifact appears, the budget is unchanged, and no event
is emitted. -/
theorem C8_capture_requires_active (s : AppState) (env : CaptureEnv)
    (h : s.cameraState.status = StatusTag.idle ∨
         s.cameraState.status = StatusTag.requesting ∨
         s.cameraState.status = StatusTag.error) :
    captureClick s env = (s, []) ∧
    (captureClick s env).1.filmCount = s.filmCount ∧
    (captureClick s env).1.capturedImage = s.capturedImage := by
  have hne : ¬ s.cameraState.status = StatusTag.active := by
    rcases h with h | h | h <;> simp [h]
  have hmain : captureClick s env = (s, []) := by
    unfold captureClick
    rw [if_neg]
    intro hcon
    exact hne hcon.1
  exact ⟨hmain, by rw [hmain], by rw [hmain]⟩

/-- C8 witness: concrete instantiation at the idle initial state. -/
theorem C8_capture_requires_active_witness :
    (initState.cameraState.status = StatusTag.idle ∨
     initState.cameraState.status = StatusTag.requesting ∨
     initState.cameraState.status = StatusTag.error) ∧
    captureClick initState trivEnv = (initState, []) :=
  ⟨Or.inl rfl, (C8_capture_requires_active initState trivEnv (Or.inl rfl)).1⟩

/-- C9: the export operation with no captured artifact held is a silent
no-op: no filename is constructed, no download is triggered, and the state
is unchanged. -/
theorem C9_download_requires_artifact (s : AppState) (now : Nat)
    (h : s.capturedImage = none) :
    downloadPhoto s now = (s, []) := by
  unfold downloadPhoto
  rw [h]

/-- C9 witness: concrete instantiation at the initial state. -/
theorem C9_download_requires_artifact_witness :
    initState.capturedImage = none ∧ downloadPhoto initState 0 = (initState, []) :=
  ⟨rfl, C9_download_requires_artifact initState 0 rfl⟩

/-- C10: selecting a filter mode changes only the selected mode: status,
error message, film budget, captured artifact, stream handle, bound source
and the transient signals are all untouched, for every mode of the closed
set. -/
theorem C10_select_mode_frame (s : AppState) (m : FilterMode) :
    (selectMode s m).selectedMode = m ∧
    (selectMode s m).cameraState = s.cameraState ∧
    (selectMode s m).filmCount = s.filmCount ∧
    (selectMode s m).capturedImage = s.capturedImage ∧
    (selectMode s m).streamRef = s.streamRef ∧
    (selectMode s m).videoSrc = s.videoSrc ∧
    (selectMode s m).isCapturing = s.isCapturing ∧
    (selectMode s m).showFlash = s.showFlash ∧
    (selectMode s m).live = s.live :=
  ⟨rfl, rfl, rfl, rfl, rfl, rfl, rfl, rfl, rfl⟩

/-- C4 counterexample: with an active camera, full budget and both elements
mounted but a failing 2d-context acquisition, the preconditions of a
successful capture are unmet, yet the call is not a complete no-op: it
raises the transient flash and capturing signals. -/
theorem C4_counterexample :
    (capturePhoto activeState noCtxEnv).1.showFlash = true ∧
    (capturePhoto activeState noCtxEnv).1.isCapturing = true ∧
    activeState.showFlash = false ∧
    activeState.isCapturing = false ∧
    (capturePhoto activeState noCtxEnv).1 ≠ activeState := by
  exact ⟨by decide, by decide, rfl, rfl, by decide⟩

/-- C4 (amended): when the budget is exhausted or an element ref is missing,
capture() is a complete no-op (state unchanged, no events); when the refs
are present and budget remains but the 2d rendering context is unavailable,
no artifact is produced and the budget is unchanged, but the flash and
capturing signals are triggered. -/
theorem C4_precondition_noop (s : AppState) (env : CaptureEnv) :
    ((¬ s.videoPresent ∨ ¬ s.canvasPresent ∨ s.filmCount ≤ 0) →
       capturePhoto s env = (s, [])) ∧
    (s.videoPresent → s.canvasPresent → 0 < s.filmCount → ¬ env.ctxAvailable →
       (capturePhoto s env).1 = { s with isCapturing := true, showFlash := true } ∧
       (capturePhoto s env).1.capturedImage = s.capturedImage ∧
       (capturePhoto s env).1.filmCount = s.filmCount ∧
       (capturePhoto s env).2 =
         [Event.capturingOn, Event.flashOn, Event.scheduleFlashOff]) := by
  constructor
  · intro h
    unfold capturePhoto
    rw [if_pos h]
  · intro hv hc hb hctx
    have hcond : ¬ (¬ s.videoPresent ∨ ¬ s.canvasPresent ∨ s.filmCount ≤ 0) := by
      push_neg
      exact ⟨hv, hc, hb⟩
    unfold capturePhoto
    rw [if_neg hcond, if_pos hctx]
    exact ⟨rfl, rfl, rfl, rfl⟩

/-- C4 witness: the no-op branch at an exhausted budget and the no-context
branch at the active state. -/
theorem C4_precondition_noop_witness :
    ({ initState with filmCount := 0 } : AppState).filmCount ≤ 0 ∧
    capturePhoto { initState with filmCount := 0 } trivEnv =
      ({ initState with filmCount := 0 }, []) ∧
    (capturePhoto activeState noCtxEnv).1 =
      { activeState with isCapturing := true, showFlash := true } :=
  ⟨by decide,
   (C4_precondition_noop { initState with filmCount := 0 } trivEnv).1
     (Or.inr (Or.inr (by decide))),
   ((C4_precondition_noop activeState noCtxEnv).2 rfl rfl (by decide)
     (by decide)).1⟩

theorem capturePhoto_presence (s : AppState) (env : CaptureEnv) :
    (capturePhoto s env).1.videoPresent = s.videoPresent ∧
    (capturePhoto s env).1.canvasPresent = s.canvasPresent := by
  unfold capturePhoto
  split_ifs <;> exact ⟨rfl, rfl⟩

theorem capturePhoto_noop_of_empty (s : AppState) (env : CaptureEnv)
    (h : s.filmCount ≤ 0) :
    capturePhoto s env = (s, []) := by
  unfold capturePhoto
  rw [if_pos (Or.inr (Or.inr h))]

theorem capturePhoto_success (s : AppState) (env : CaptureEnv)
    (hv : s.videoPresent = true) (hc : s.canvasPresent = true)
    (hctx : env.ctxAvailable = true) (hb : 0 < s.filmCount) :
    (capturePhoto s env).1.filmCount = s.filmCount - 1 ∧
    ((capturePhoto s env).1.capturedImage).isSome ∧
    Event.artifactStored ∈ (capturePhoto s env).2 := by
  have hcond : ¬ (¬ s.videoPresent ∨ ¬ s.canvasPresent ∨ s.filmCount ≤ 0) := by
    push_neg
    exact ⟨by simp [hv], by simp [hc], hb⟩
  unfold capturePhoto
  rw [if_neg hcond, if_neg (by simp [hctx])]
  refine ⟨rfl, rfl, by simp⟩

theorem capturePhoto_filmCount (s : AppState) (env : CaptureEnv) :
    (capturePhoto s env).1.filmCount = s.filmCount ∨
    (0 < s.filmCount ∧ (capturePhoto s env).1.filmCount = s.filmCount - 1) := by
  unfold capturePhoto
  split_ifs with h1 h2
  · exact Or.inl rfl
  · refine Or.inr ⟨?_, rfl⟩
    push_neg at h1
    exact h1.2.2
  · exact Or.inl rfl

theorem iterCapture_budget (s : AppState) (envs : Nat → CaptureEnv)
    (hv : s.videoPresent = true) (hc : s.canvasPresent = true)
    (hctx : ∀ k, (envs k).ctxAvailable = true) :
    ∀ k : Nat, (k : Int) ≤ s.filmCount →
      (iterCapture envs s k).filmCount = s.filmCount - k ∧
      (iterCapture envs s k).videoPresent = true ∧
      (iterCapture envs s k).canvasPresent = true := by
  intro k
  induction k with
  | zero => exact fun _ => ⟨by simp [iterCapture], hv, hc⟩
  | succ n ih =>
      intro hk
      have hn : (n : Int) ≤ s.filmCount := by push_cast at hk ⊢; omega
      obtain ⟨hfc, hvp, hcp⟩ := ih hn
      have hpos : 0 < (iterCapture envs s n).filmCount := by
        rw [hfc]; push_cast at hk ⊢; omega
      have hsucc :=
        capturePhoto_success (iterCapture envs s n) (envs n) hvp hcp (hctx n) hpos
      have hpres := capturePhoto_presence (iterCapture envs s n) (envs n)
      have hstep : iterCapture envs s (n+1) =
          (capturePhoto (iterCapture envs s n) (envs n)).1 := rfl
      refine ⟨?_, ?_, ?_⟩
      · rw [hstep, hsucc.1, hfc]; push_cast; ring
      · rw [hstep, hpres.1, hvp]
      · rw [hstep, hpres.2, hcp]

/-- C3: from budget 24 with a valid frame, each of 24 successive captures
produces an artifact and decrements the budget by exactly 1 down to 0; the
25th capture is a complete no-op with no new artifact and budget still 0;
the budget is never negative and never replenished. -/
theorem C3_film_budget (s : AppState) (envs : Nat → CaptureEnv)
    (hv : s.videoPresent = true) (hc : s.canvasPresent = true)
    (h24 : s.filmCount = 24) (hctx : ∀ k, (envs k).ctxAvailable = true) :
    (∀ k, k < 24 →
      (iterCapture envs s k).filmCount = 24 - (k : Int) ∧
      (iterCapture envs s (k+1)).filmCount = 24 - ((k : Int) + 1) ∧
      Event.artifactStored ∈ (capturePhoto (iterCapture envs s k) (envs k)).2 ∧
      ((iterCapture envs s (k+1)).capturedImage).isSome) ∧
    (iterCapture envs s 24).filmCount = 0 ∧
    capturePhoto (iterCapture envs s 24) (envs 24) = (iterCapture envs s 24, []) ∧
    (∀ n, 0 ≤ (iterCapture envs s n).filmCount) ∧
    (∀ n, (iterCapture envs s (n+1)).filmCount ≤ (iterCapture envs s n).filmCount) := by
  have budget := iterCapture_budget s envs hv hc hctx
  have h0 : (iterCapture envs s 24).filmCount = 0 := by
    have := (budget 24 (by rw [h24]; norm_num)).1
    rw [this, h24]; norm_num
  refine ⟨?_, h0, ?_, ?_, ?_⟩
  · intro k hk
    have hkle : (k : Int) ≤ s.filmCount := by rw [h24]; exact_mod_cast hk.le
    have hk1le : ((k+1 : Nat) : Int) ≤ s.filmCount := by
      rw [h24]; exact_mod_cast hk
    obtain ⟨hfc, hvp, hcp⟩ := budget k hkle
    have hpos : 0 < (iterCapture envs s k).filmCount := by
      rw [hfc, h24]
      have : (k : Int) < 24 := by exact_mod_cast hk
      omega
    have hsucc :=
      capturePhoto_success (iterCapture envs s k) (envs k) hvp hcp (hctx k) hpos
    have hstep : iterCapture envs s (k+1) =
        (capturePhoto (iterCapture envs s k) (envs k)).1 := rfl
    refine ⟨by rw [hfc, h24], ?_, hsucc.2.2, by rw [hstep]; exact hsucc.2.1⟩
    rw [hstep, hsucc.1, hfc, h24]; ring
  · exact capturePhoto_noop_of_empty _ _ (le_of_eq h0)
  · intro n
    induction n with
    | zero => simp [iterCapture, h24]
    | succ m ih =>
        rcases capturePhoto_filmCount (iterCapture envs s m) (envs m) with h | h
        · have hstep : iterCapture envs s (m+1) =
              (capturePhoto (iterCapture envs s m) (envs m)).1 := rfl
          rw [hstep, h]; exact ih
        · have hstep : iterCapture envs s (m+1) =
              (capturePhoto (iterCapture envs s m) (envs m)).1 := rfl
          rw [hstep, h.2]; omega
  · intro n
    rcases capturePhoto_filmCount (iterCapture envs s n) (envs n) with h | h
    · have hstep : iterCapture envs s (n+1) =
          (capturePhoto (iterCapture envs s n) (envs n)).1 := rfl
      rw [hstep, h]
    · have hstep : iterCapture envs s (n+1) =
          (capturePhoto (iterCapture envs s n) (envs n)).1 := rfl
      rw [hstep, h.2]; omega

/-- C3 witness: the scenario instantiated at the active state with a fixed
working environment. -/
theorem C3_film_budget_witness :
    activeState.videoPresent = true ∧ activeState.canvasPresent = true ∧
    activeState.filmCount = 24 ∧
    (∀ k : Nat, ((fun _ : Nat => trivEnv) k).ctxAvailable = true) ∧
    (iterCapture (fun _ : Nat => trivEnv) activeState 24).filmCount = 0 ∧
    capturePhoto (iterCapture (fun _ : Nat => trivEnv) activeState 24) trivEnv =
      (iterCapture (fun _ : Nat => trivEnv) activeState 24, []) :=
  ⟨rfl, rfl, rfl, fun _ => rfl,
   (C3_film_budget activeState (fun _ : Nat => trivEnv) rfl rfl rfl (fun _ => rfl)).2.1,
   (C3_film_budget activeState (fun _ : Nat => trivEnv) rfl rfl rfl (fun _ => rfl)).2.2.1⟩

theorem stopCamera_streamRef (s : AppState) : (stopCamera s).1.streamRef = none := by
  rw [stopCamera_fst]

theorem stopCamera_videoPresent (s : AppState) :
    (stopCamera s).1.videoPresent = s.videoPresent := by
  rw [stopCamera_fst]

theorem capturePhoto_live (s : AppState) (env : CaptureEnv) :
    (capturePhoto s env).1.live = s.live ∧
    (capturePhoto s env).1.streamRef = s.streamRef := by
  unfold capturePhoto
  split_ifs <;> exact ⟨rfl, rfl⟩

/-- Shape of the event trace of one `startCamera` invocation: status is set
to requesting, the previous stream's tracks are stopped and the source
detached, and only then is the acquisition request issued. -/
theorem startCamera_snd (s : AppState) (o : AcqOutcome) :
    ∃ tail : List Event,
      (startCamera s o).2 =
        Event.statusSet { status := .requesting, error := none } ::
        ((match s.streamRef with
          | some h => [Event.trackStop h]
          | none => []) ++
         (if s.videoPresent then [Event.srcCleared] else []) ++
         (Event.acquireRequest :: tail)) := by
  obtain ⟨cs, sm, fc, ic, ci, sf, vp, cp, vs, sr, lv⟩ := s
  cases o with
  | rejected e =>
      refine ⟨[Event.statusSet (classifyError (errMessage e))], ?_⟩
      cases sr <;> cases vp <;> simp [startCamera, stopCamera]
  | granted h2 r =>
      cases vp with
      | false =>
          refine ⟨[], ?_⟩
          cases r <;> cases sr <;> simp [startCamera, stopCamera]
      | true =>
          cases r with
          | loadedAndPlayed =>
              refine ⟨[Event.srcBound h2, Event.playStarted,
                       Event.statusSet { status := .active, error := none }], ?_⟩
              cases sr <;> simp [startCamera, stopCamera]
          | loadedPlayFailed e =>
              refine ⟨[Event.srcBound h2,
                       Event.statusSet (classifyError (errMessage e))], ?_⟩
              cases sr <;> simp [startCamera, stopCamera]
          | videoError =>
              refine ⟨[Event.srcBound h2,
                       Event.statusSet (classifyError "Video failed to load")], ?_⟩
              cases sr <;> simp [startCamera, stopCamera]
          | timeout =>
              refine ⟨[Event.srcBound h2,
                       Event.statusSet (classifyError "Camera initialization timed out")], ?_⟩
              cases sr <;> simp [startCamera, stopCamera]

/-- The at-most-one-live-handle invariant: the ghost list of unreleased
handles is exactly the content of the stream ref. -/
def HandleInv (s : AppState) : Prop :=
  s.live = refLive s.streamRef

theorem stopCamera_inv (s : AppState) (h : HandleInv s) :
    HandleInv (stopCamera s).1 := by
  unfold HandleInv at *
  rw [stopCamera_fst]
  cases hsr : s.streamRef with
  | none => simpa [refLive, hsr] using h
  | some h0 =>
      rw [hsr] at h
      simp [refLive, h, hsr]

theorem startCamera_inv (s : AppState) (o : AcqOutcome) (h : HandleInv s) :
    HandleInv (startCamera s o).1 := by
  obtain ⟨cs, sm, fc, ic, ci, sf, vp, cp, vs, sr, lv⟩ := s
  unfold HandleInv at *
  cases o with
  | rejected e =>
      cases sr <;> cases vp <;> simp_all [startCamera, stopCamera, refLive]
  | granted h2 r =>
      cases r <;> cases sr <;> cases vp <;>
        simp_all [startCamera, stopCamera, refLive]

theorem step_inv (s : AppState) (op : Op) (h : HandleInv s) :
    HandleInv (step s op).1 := by
  cases op with
  | start o => exact startCamera_inv s o h
  | stop => exact stopCamera_inv s h
  | capture env =>
      unfold HandleInv at *
      rw [show (step s (Op.capture env)).1 = (capturePhoto s env).1 from rfl,
          (capturePhoto_live s env).1, (capturePhoto_live s env).2]
      exact h
  | click env =>
      unfold HandleInv at *
      show (captureClick s env).1.live = refLive (captureClick s env).1.streamRef
      unfold captureClick
      split_ifs
      · rw [(capturePhoto_live s env).1, (capturePhoto_live s env).2]
        exact h
      · exact h
  | select m => exact h
  | save now =>
      unfold HandleInv at *
      show (downloadPhoto s now).1.live = refLive (downloadPhoto s now).1.streamRef
      unfold downloadPhoto
      cases s.capturedImage <;> exact h

theorem run_inv (ops : List Op) : ∀ s, HandleInv s → HandleInv (run s ops).1 := by
  induction ops with
  | nil => exact fun s h => h
  | cons op ops ih => exact fun s h => ih _ (step_inv s op h)

/-- C2: every start() with a held handle stops that handle's tracks strictly
before the (unique first) acquisition request is issued, and across every
operation sequence from the initial state at most one unreleased handle
exists. -/
theorem C2_handle_exclusive (s : AppState) (o : AcqOutcome) (h : Nat)
    (ops : List Op) (hh : s.streamRef = some h) :
    (∃ i j : Nat, i < j ∧
      ((startCamera s o).2)[i]? = some (Event.trackStop h) ∧
      ((startCamera s o).2)[j]? = some Event.acquireRequest ∧
      ∀ m, m < j → ((startCamera s o).2)[m]? ≠ some Event.acquireRequest) ∧
    (run initState ops).1.live.length ≤ 1 := by
  constructor
  · obtain ⟨tail, htr⟩ := startCamera_snd s o
    rw [hh] at htr
    by_cases hv : s.videoPresent = true
    · rw [hv] at htr
      simp only [if_true, List.cons_append, List.nil_append, List.singleton_append] at htr
      refine ⟨1, 3, by omega, by rw [htr]; simp, by rw [htr]; simp, ?_⟩
      intro m hm
      interval_cases m <;> rw [htr] <;> simp
    · rw [eq_false_of_ne_true hv] at htr
      simp only [if_false, List.cons_append, List.nil_append, List.singleton_append,
        List.append_nil] at htr
      refine ⟨1, 2, by omega, by rw [htr]; simp, by rw [htr]; simp, ?_⟩
      intro m hm
      interval_cases m <;> rw [htr] <;> simp
  · have hinv := run_inv ops initState rfl
    unfold HandleInv at hinv
    rw [hinv]
    cases (run initState ops).1.streamRef <;> simp [refLive]

/-- C2 witness: concrete instantiation with a held handle and a short
operation sequence. -/
theorem C2_handle_exclusive_witness :
    ({ initState with streamRef := some 5, live := [5] } : AppState).streamRef = some 5 ∧
    (∃ i j : Nat, i < j ∧
      ((startCamera { initState with streamRef := some 5, live := [5] }
          (AcqOutcome.granted 7 ReadyOutcome.loadedAndPlayed)).2)[i]? =
        some (Event.trackStop 5) ∧
      ((startCamera { initState with streamRef := some 5, live := [5] }
          (AcqOutcome.granted 7 ReadyOutcome.loadedAndPlayed)).2)[j]? =
        some Event.acquireRequest ∧
      ∀ m, m < j →
        ((startCamera { initState with streamRef := some 5, live := [5] }
            (AcqOutcome.granted 7 ReadyOutcome.loadedAndPlayed)).2)[m]? ≠
          some Event.acquireRequest) ∧
    (run initState [Op.start (AcqOutcome.granted 7 ReadyOutcome.loadedAndPlayed),
                    Op.stop]).1.live.length ≤ 1 :=
  ⟨rfl,
   (C2_handle_exclusive { initState with streamRef := some 5, live := [5] }
      (AcqOutcome.granted 7 ReadyOutcome.loadedAndPlayed) 5
      [Op.start (AcqOutcome.granted 7 ReadyOutcome.loadedAndPlayed), Op.stop] rfl).1,
   (C2_handle_exclusive { initState with streamRef := some 5, live := [5] }
      (AcqOutcome.granted 7 ReadyOutcome.loadedAndPlayed) 5
      [Op.start (AcqOutcome.granted 7 ReadyOutcome.loadedAndPlayed), Op.stop] rfl).2⟩

theorem statusEvents_append (l1 l2 : List Event) :
    statusEvents (l1 ++ l2) = statusEvents l1 ++ statusEvents l2 :=
  List.filterMap_append l1 l2 _

/-- Every operation records either no status assignment, the single
requesting assignment, or requesting followed by one active-or-error
assignment. -/
theorem step_statusEvents (s : AppState) (op : Op) :
    statusEvents (step s op).2 = [] ∨
    statusEvents (step s op).2 = [{ status := .requesting, error := none }] ∨
    ∃ st : CameraState,
      (st.status = StatusTag.active ∨ st.status = StatusTag.error) ∧
      statusEvents (step s op).2 =
        [{ status := .requesting, error := none }, st] := by
  obtain ⟨cs, sm, fc, ic, ci, sf, vp, cp, vs, sr, lv⟩ := s
  cases op with
  | start o =>
      cases o with
      | rejected e =>
          refine Or.inr (Or.inr ⟨classifyError (errMessage e),
            Or.inr (classifyError_status _), ?_⟩)
          cases sr <;> cases vp <;>
            simp [step, startCamera, stopCamera, statusEvents]
      | granted h2 r =>
          cases vp with
          | false =>
              refine Or.inr (Or.inl ?_)
              cases r <;> cases sr <;>
                simp [step, startCamera, stopCamera, statusEvents]
          | true =>
              cases r with
              | loadedAndPlayed =>
                  refine Or.inr (Or.inr
                    ⟨{ status := .active, error := none }, Or.inl rfl, ?_⟩)
                  cases sr <;> simp [step, startCamera, stopCamera, statusEvents]
              | loadedPlayFailed e =>
                  refine Or.inr (Or.inr ⟨classifyError (errMessage e),
                    Or.inr (classifyError_status _), ?_⟩)
                  cases sr <;> simp [step, startCamera, stopCamera, statusEvents]
              | videoError =>
                  refine Or.inr (Or.inr ⟨classifyError "Video failed to load",
                    Or.inr (classifyError_status _), ?_⟩)
                  cases sr <;> simp [step, startCamera, stopCamera, statusEvents]
              | timeout =>
                  refine Or.inr (Or.inr
                    ⟨classifyError "Camera initialization timed out",
                     Or.inr (classifyError_status _), ?_⟩)
                  cases sr <;> simp [step, startCamera, stopCamera, statusEvents]
  | stop =>
      refine Or.inl ?_
      cases sr <;> cases vp <;> simp [step, stopCamera, statusEvents]
  | capture env =>
      refine Or.inl ?_
      show statusEvents (capturePhoto _ env).2 = []
      unfold capturePhoto
      split_ifs <;> simp [statusEvents]
  | click env =>
      refine Or.inl ?_
      show statusEvents (captureClick _ env).2 = []
      unfold captureClick capturePhoto
      split_ifs <;> simp [statusEvents]
  | select m => exact Or.inl rfl
  | save now =>
      refine Or.inl ?_
      show statusEvents (downloadPhoto _ now).2 = []
      unfold downloadPhoto
      cases ci <;> simp [statusEvents]

theorem run_chain (ops : List Op) :
    ∀ (s : AppState) (c : CameraState),
      List.Chain' intoRequires (c :: statusEvents (run s ops).2) := by
  induction ops with
  | nil => exact fun s c => List.chain'_singleton c
  | cons op ops ih =>
      intro s c
      have hrun : (run s (op :: ops)).2 =
          (step s op).2 ++ (run (step s op).1 ops).2 := rfl
      rw [hrun, statusEvents_append]
      rcases step_statusEvents s op with h | h | ⟨st, hst, h⟩
      · rw [h, List.nil_append]
        exact ih (step s op).1 c
      · rw [h, List.singleton_append]
        refine List.chain'_cons.mpr ⟨?_, ih (step s op).1 _⟩
        rintro (hq | hq) <;> simp at hq
      · rw [h, List.cons_append, List.singleton_append]
        refine List.chain'_cons.mpr
          ⟨?_, List.chain'_cons.mpr ⟨?_, ih (step s op).1 st⟩⟩
        · rintro (hq | hq) <;> simp at hq
        · exact fun _ => rfl

/-- C6: along every operation sequence from the initial state, every status
assignment to active or to error is immediately preceded by a requesting
assignment (no transition skips requesting en route to active or error),
and every start() invocation records the requesting assignment as its very
first event. -/
theorem C6_requesting_first (ops : List Op) (s : AppState) (o : AcqOutcome) :
    List.Chain' intoRequires
      (initState.cameraState :: statusEvents (run initState ops).2) ∧
    ((startCamera s o).2)[0]? =
      some (Event.statusSet { status := .requesting, error := none }) := by
  refine ⟨run_chain ops initState initState.cameraState, ?_⟩
  obtain ⟨tail, htr⟩ := startCamera_snd s o
  rw [htr]
  simp

theorem applyGrainAux_cons (rand : Nat → ℚ) (k : Nat) (r g b a : Nat)
    (rest : List Nat) :
    applyGrainAux rand k (r :: g :: b :: a :: rest) =
      toUint8Clamp (r + noiseAt rand k) :: toUint8Clamp (g + noiseAt rand k) ::
      toUint8Clamp (b + noiseAt rand k) :: a ::
      applyGrainAux rand (k + 1) rest := rfl

theorem applyGrainAux_drop (rand : Nat → ℚ) :
    ∀ (p k : Nat) (data : List Nat), 4 * p ≤ data.length →
      (applyGrainAux rand k data).drop (4 * p) =
        applyGrainAux rand (k + p) (data.drop (4 * p)) := by
  intro p
  induction p with
  | zero => intro k data _; simp
  | succ q ih =>
      intro k data hlen
      rcases data with _ | ⟨r, data⟩
      · simp at hlen
      rcases data with _ | ⟨g, data⟩
      · simp at hlen; omega
      rcases data with _ | ⟨b, data⟩
      · simp at hlen; omega
      rcases data with _ | ⟨a, rest⟩
      · simp at hlen; omega
      have hlen' : 4 * q ≤ rest.length := by
        simp at hlen
        omega
      have hdrop : ∀ (x1 x2 x3 x4 : Nat) (L : List Nat) (m : Nat),
          (x1 :: x2 :: x3 :: x4 :: L).drop (m + 4) = L.drop m := by
        intro x1 x2 x3 x4 L m
        rw [show m + 4 = (((m + 1) + 1) + 1) + 1 by omega]
        simp [List.drop_succ_cons]
      have h4 : 4 * (q + 1) = 4 * q + 4 := by ring
      rw [applyGrainAux_cons, h4, hdrop, hdrop, ih (k + 1) rest hlen']
      congr 1
      omega

/-- C5: for every pixel of the buffer, the grain pass adds one shared noise
sample to the red, green and blue bytes, leaves the alpha byte untouched,
the sample lies in [-10, 10] whenever the random draw lies in [0, 1], and
every written byte is clamped into the valid channel range. -/
theorem C5_grain_per_pixel (data : List Nat) (rand : Nat → ℚ) (p : Nat)
    (hp : 4 * p + 3 < data.length) (h0 : 0 ≤ rand p) (h1 : rand p ≤ 1) :
    (∃ r g b a : Nat,
      data[4 * p]? = some r ∧ data[4 * p + 1]? = some g ∧
      data[4 * p + 2]? = some b ∧ data[4 * p + 3]? = some a ∧
      (applyGrain data rand)[4 * p]? =
        some (toUint8Clamp (r + noiseAt rand p)) ∧
      (applyGrain data rand)[4 * p + 1]? =
        some (toUint8Clamp (g + noiseAt rand p)) ∧
      (applyGrain data rand)[4 * p + 2]? =
        some (toUint8Clamp (b + noiseAt rand p)) ∧
      (applyGrain data rand)[4 * p + 3]? = some a) ∧
    (-10 ≤ noiseAt rand p ∧ noiseAt rand p ≤ 10) ∧
    (∀ x : ℚ, toUint8Clamp x ≤ 255) := by
  have hple : 4 * p ≤ data.length := by omega
  have hlen : 4 ≤ (data.drop (4 * p)).length := by
    rw [List.length_drop]
    omega
  obtain ⟨r, g, b, a, rest, htail⟩ :
      ∃ r g b a rest, data.drop (4 * p) = r :: g :: b :: a :: rest := by
    match hd : data.drop (4 * p), hlen with
    | r :: g :: b :: a :: rest, _ => exact ⟨r, g, b, a, rest, rfl⟩
    | [], h => simp at h
    | [r], h => simp at h
    | [r, g], h => simp at h
    | [r, g, b], h => simp at h
  have hdr2 : (applyGrainAux rand 0 data).drop (4 * p) =
      applyGrainAux rand p (r :: g :: b :: a :: rest) := by
    rw [applyGrainAux_drop rand p 0 data hple, Nat.zero_add, htail]
  refine ⟨⟨r, g, b, a, ?_, ?_, ?_, ?_, ?_, ?_, ?_, ?_⟩, ?_, ?_⟩
  · have e := List.getElem?_drop data (4 * p) 0
    rw [htail] at e
    simpa using e.symm
  · have e := List.getElem?_drop data (4 * p) 1
    rw [htail] at e
    simpa using e.symm
  · have e := List.getElem?_drop data (4 * p) 2
    rw [htail] at e
    simpa using e.symm
  · have e := List.getElem?_drop data (4 * p) 3
    rw [htail] at e
    simpa using e.symm
  · have e := List.getElem?_drop (applyGrainAux rand 0 data) (4 * p) 0
    rw [hdr2, applyGrainAux_cons] at e
    simpa [applyGrain] using e.symm
  · have e := List.getElem?_drop (applyGrainAux rand 0 data) (4 * p) 1
    rw [hdr2, applyGrainAux_cons] at e
    simpa [applyGrain] using e.symm
  · have e := List.getElem?_drop (applyGrainAux rand 0 data) (4 * p) 2
    rw [hdr2, applyGrainAux_cons] at e
    simpa [applyGrain] using e.symm
  · have e := List.getElem?_drop (applyGrainAux rand 0 data) (4 * p) 3
    rw [hdr2, applyGrainAux_cons] at e
    simpa [applyGrain] using e.symm
  · unfold noiseAt
    constructor <;> nlinarith
  · intro x
    unfold toUint8Clamp
    split_ifs with hx1 hx2
    · omega
    · omega
    · have hre : roundHalfEven x =
          if x - ⌊x⌋ < 1/2 then ⌊x⌋
          else if 1/2 < x - ⌊x⌋ then ⌊x⌋ + 1
          else if ⌊x⌋ % 2 = 0 then ⌊x⌋ else ⌊x⌋ + 1 := rfl
      have hfl : ⌊x⌋ < 255 := by
        rw [Int.floor_lt]
        push_neg at hx2
        exact_mod_cast hx2
      rw [hre]
      split_ifs <;> omega

/-- C5 witness: the grain property instantiated at a concrete two-pixel
buffer with a fixed random draw of 3/4 for pixel 0. -/
theorem C5_grain_per_pixel_witness :
    4 * 0 + 3 < ([10, 20, 30, 255, 1, 2, 3, 4] : List Nat).length ∧
    (0 : ℚ) ≤ (fun _ : Nat => (3/4 : ℚ)) 0 ∧
    ((fun _ : Nat => (3/4 : ℚ)) 0 ≤ 1) ∧
    (-10 ≤ noiseAt (fun _ : Nat => (3/4 : ℚ)) 0 ∧
      noiseAt (fun _ : Nat => (3/4 : ℚ)) 0 ≤ 10) :=
  ⟨by decide, by norm_num, by norm_num,
   (C5_grain_per_pixel [10, 20, 30, 255, 1, 2, 3, 4] (fun _ : Nat => (3/4 : ℚ)) 0
      (by decide) (by norm_num) (by norm_num)).2.1⟩

/-- C1 counterexample: with the video element mounted, a granted acquisition
followed by a readiness timeout settles in an error status, yet the freshly
acquired handle is still retained in the stream ref — contradicting the
claim that no handle is retained after a failure settles. -/
theorem C1_counterexample :
    (startCamera initState (AcqOutcome.granted 7 ReadyOutcome.timeout)).1.cameraState.status =
      StatusTag.error ∧
    (startCamera initState (AcqOutcome.granted 7 ReadyOutcome.timeout)).1.streamRef = some 7 ∧
    (startCamera initState (AcqOutcome.granted 7 ReadyOutcome.timeout)).1.streamRef ≠ none := by
  have hvp2 : (stopCamera { initState with
      cameraState := { status := .requesting, error := none } }).1.videoPresent = true := by
    rw [stopCamera_videoPresent]
    rfl
  refine ⟨?_, rfl, ?_⟩
  · simp [startCamera, hvp2, classifyError_status]
  · simp [startCamera, hvp2]

/-- C1 (amended): every failing start() (acquisition rejected, readiness
error, play failure, or 5-second timeout) sets status to error with a
message classified as permission-denied, device-not-found, or
other ("Camera error: " + message); after an acquisition rejection no
handle is retained, but after a readiness failure the newly acquired handle
remains stored in the stream ref; on success the handle is stored, bound to
the video element, playback begins, and status becomes active. -/
theorem C1_start_contract (s : AppState) (o : AcqOutcome)
    (hv : s.videoPresent = true) :
    (∀ m, startFailureMsg o = some m →
      (startCamera s o).1.cameraState = classifyError m ∧
      (startCamera s o).1.cameraState.status = StatusTag.error ∧
      ((startCamera s o).1.cameraState.error = some deniedMsg ∨
       (startCamera s o).1.cameraState.error = some notFoundMsg ∨
       (startCamera s o).1.cameraState.error = some ("Camera error: " ++ m))) ∧
    (∀ e, o = AcqOutcome.rejected e → (startCamera s o).1.streamRef = none) ∧
    (∀ h r, o = AcqOutcome.granted h r → r ≠ ReadyOutcome.loadedAndPlayed →
      (startCamera s o).1.streamRef = some h) ∧
    (∀ h, o = AcqOutcome.granted h ReadyOutcome.loadedAndPlayed →
      (startCamera s o).1.cameraState =
        { status := StatusTag.active, error := none } ∧
      (startCamera s o).1.streamRef = some h ∧
      (startCamera s o).1.videoSrc = some h ∧
      Event.playStarted ∈ (startCamera s o).2) := by
  have hvp2 : (stopCamera { s with
      cameraState := { status := .requesting, error := none } }).1.videoPresent = true := by
    rw [stopCamera_videoPresent]
    exact hv
  cases o with
  | rejected e =>
      refine ⟨?_, ?_, ?_, ?_⟩
      · intro m hm
        have hm2 : m = errMessage e := by
          simpa [startFailureMsg] using hm.symm
        subst hm2
        have hcs : (startCamera s (AcqOutcome.rejected e)).1.cameraState =
            classifyError (errMessage e) := by
          simp [startCamera]
        exact ⟨hcs, by rw [hcs]; exact classifyError_status _,
          by rw [hcs]; exact classifyError_cases _⟩
      · intro e2 _
        have hsr : (startCamera s (AcqOutcome.rejected e)).1.streamRef =
            (stopCamera { s with
              cameraState := { status := .requesting, error := none } }).1.streamRef := by
          simp [startCamera]
        rw [hsr, stopCamera_streamRef]
      · intro h r heq
        simp at heq
      · intro h heq
        simp at heq
  | granted h2 r =>
      refine ⟨?_, ?_, ?_, ?_⟩
      · intro m hm
        cases r with
        | loadedAndPlayed => simp [startFailureMsg] at hm
        | loadedPlayFailed e =>
            have hm2 : m = errMessage e := by
              simpa [startFailureMsg] using hm.symm
            subst hm2
            have hcs : (startCamera s (AcqOutcome.granted h2
                (ReadyOutcome.loadedPlayFailed e))).1.cameraState =
                classifyError (errMessage e) := by
              simp [startCamera, hvp2]
            exact ⟨hcs, by rw [hcs]; exact classifyError_status _,
              by rw [hcs]; exact classifyError_cases _⟩
        | videoError =>
            have hm2 : m = "Video failed to load" := by
              simpa [startFailureMsg] using hm.symm
            subst hm2
            have hcs : (startCamera s (AcqOutcome.granted h2
                ReadyOutcome.videoError)).1.cameraState =
                classifyError "Video failed to load" := by
              simp [startCamera, hvp2]
            exact ⟨hcs, by rw [hcs]; exact classifyError_status _,
              by rw [hcs]; exact classifyError_cases _⟩
        | timeout =>
            have hm2 : m = "Camera initialization timed out" := by
              simpa [startFailureMsg] using hm.symm
            subst hm2
            have hcs : (startCamera s (AcqOutcome.granted h2
                ReadyOutcome.timeout)).1.cameraState =
                classifyError "Camera initialization timed out" := by
              simp [startCamera, hvp2]
            exact ⟨hcs, by rw [hcs]; exact classifyError_status _,
              by rw [hcs]; exact classifyError_cases _⟩
      · intro e heq
        simp at heq
      · intro h3 r3 heq hne
        cases heq
        cases r with
        | loadedAndPlayed => exact absurd rfl hne
        | loadedPlayFailed e => simp [startCamera, hvp2]
        | videoError => simp [startCamera, hvp2]
        | timeout => simp [startCamera, hvp2]
      · intro h3 heq
        cases heq
        refine ⟨?_, ?_, ?_, ?_⟩ <;> simp [startCamera, hvp2]

/-- C1 witness: the amended contract instantiated at the initial state with
a granted handle and a readiness timeout. -/
theorem C1_start_contract_witness :
    initState.videoPresent = true ∧
    startFailureMsg (AcqOutcome.granted 7 ReadyOutcome.timeout) =
      some "Camera initialization timed out" ∧
    (startCamera initState (AcqOutcome.granted 7 ReadyOutcome.timeout)).1.streamRef = some 7 ∧
    (startCamera initState
        (AcqOutcome.granted 7 ReadyOutcome.timeout)).1.cameraState.status =
      StatusTag.error :=
  ⟨rfl, rfl,
   (C1_start_contract initState (AcqOutcome.granted 7 ReadyOutcome.timeout)
      rfl).2.2.1 7 ReadyOutcome.timeout rfl (by simp),
   ((C1_start_contract initState (AcqOutcome.granted 7 ReadyOutcome.timeout)
      rfl).1 "Camera initialization timed out" rfl).2.1⟩

end Retrocam
